import Mathlib

/-!
Verification of the account-block / transaction-pipeline core of the vite.js
repository.  The TypeScript sources under `src/` are shallowly embedded as
executable Lean definitions; code of the repository that is referenced but not
present under `src/` (the `./utils` encoding helpers, the hdwallet address
derivation, the ed25519 primitives, `signAccountBlock` and
`validReqAccountBlock`) is modelled from the specification, each such
definition carrying a doc comment that says so.
-/

namespace ViteJS

/-! ## Decimal numeral helpers

Decimal string fields (`height`, `amount`, `fee`, `difficulty`) are parsed and
printed with fuel-driven recursions so that every definition reduces by
computation. -/

/-- Value of a decimal digit character. -/
def decDigitVal (c : Char) : Nat := c.toNat - 48

/-- Decimal value of a numeral string (the `BigNumber` decimal parse). -/
def decToNat (s : String) : Nat :=
  s.toList.foldl (fun a c => 10 * a + decDigitVal c) 0

/-- Decimal digit character. -/
def decDigitChar (d : Nat) : Char := Char.ofNat (48 + d)

/-- Decimal digit characters of a number, fuel-driven. -/
def decCharsAux : Nat → Nat → List Char
  | 0, _ => []
  | fuel + 1, n =>
    if n < 10 then [decDigitChar n]
    else decCharsAux fuel (n / 10) ++ [decDigitChar (n % 10)]

/-- Decimal numeral string of a number (`BigNumber.toString`). -/
def natToDecStr (n : Nat) : String := String.mk (decCharsAux (n + 1) n)

/-! ## Symbolic cryptography and address derivation -/

abbrev PrivKey := Nat
abbrev PubKey := Nat

/-- Modelled from the spec: public-key derivation from a private key
(`createAddressByPrivateKey` in vitejs-hdwallet, not under src).  The
derivation is one-way and deterministic; it is modelled by an arbitrary
injective function on the symbolic key space. -/
def getPublicKeyOf (k : PrivKey) : PubKey := 2 * k + 1

/-- Modelled from the spec: one-way address derivation from a public key
(`getAddressFromPublicKey` in vitejs-hdwallet, not under src).  Addresses carry
a human-readable wrapper around the raw identifier. -/
def getAddressFromPublicKey (p : PubKey) : String := "vite_" ++ natToDecStr p

/-- `createAddressByPrivateKey` (vitejs-hdwallet, not under src): derives both
the public key and the wrapped address of a private key. -/
def createAddressByPrivateKey (k : PrivKey) : String × PubKey :=
  (getAddressFromPublicKey (getPublicKeyOf k), getPublicKeyOf k)

/-- A symbolic ed25519 signature: it records the signed message and the public
key of the signer, so that verification is exact. -/
structure Sig where
  msg : List Nat
  signer : PubKey
deriving Repr, DecidableEq

/-- Modelled from the spec: ed25519 signing (vitejs-utils, not under src),
symbolic. -/
def ed25519Sign (msg : List Nat) (k : PrivKey) : Sig :=
  { msg := msg, signer := getPublicKeyOf k }

/-- Modelled from the spec: ed25519 verification (vitejs-utils, not under
src), symbolic: a signature verifies against exactly the signed message and
the signer's public key. -/
def ed25519Verify (s : Sig) (msg : List Nat) (p : PubKey) : Bool :=
  s.msg == msg && s.signer == p

/-! ## The account-block data model (`src/src/transaction/accountBlock.ts`) -/

/-- The fields of an account block, as stored by `AccountBlockClass`.
Optional fields are `Option`; `data` and `nonce` are kept as raw byte lists
(their transport Base64 decoding is abstracted away); decimal integer fields
(`amount`, `fee`, `height`, `difficulty`) are decimal strings as in the
TypeScript types. -/
structure AccountBlockB where
  blockType : Nat
  address : String
  toAddress : Option String := none
  tokenId : Option String := none
  amount : Option String := none
  fee : Option String := none
  data : Option (List Nat) := none
  sendBlockHash : Option String := none
  height : Option String := none
  previousHash : Option String := none
  difficulty : Option String := none
  nonce : Option (List Nat) := none
  publicKey : Option PubKey := none
  signature : Option Sig := none
deriving Repr, DecidableEq

/-- The all-zero sentinel `Default_Hash` used as `previousHash` of the first
block of an account chain. -/
def Default_Hash : String :=
  "0000000000000000000000000000000000000000000000000000000000000000"

/-! ## Canonical encoding and content hash

`getAccountBlockHash` and the per-field hex getters live in
`src/transaction/utils`, which is not under src; they are modelled from the
spec (section 4.1): integers serialize as minimal big-endian hex with zero and
absent encoding to the empty byte string; `realAddress` strips the address
wrapper; the digest runs over the fields in the fixed order blockType,
realAddress, previousHash, toAddress, amount, tokenId, data, fee,
sendBlockHash, height, nonce. -/

/-- Byte view of a string (one code point per byte, symbolic). -/
def strBytes (s : String) : List Nat := s.toList.map Char.toNat

/-- Big-endian base-256 digits of a positive number, fuel-driven so that it
reduces by computation. -/
def beDigitsAux : Nat → Nat → List Nat
  | 0, _ => []
  | fuel + 1, n => if n < 256 then [n] else beDigitsAux fuel (n / 256) ++ [n % 256]

/-- Modelled from the spec: minimal big-endian byte encoding of a natural
number; zero encodes to the empty byte string, not a literal zero byte. -/
def natToBE (n : Nat) : List Nat := if n = 0 then [] else beDigitsAux n n

/-- Modelled from the spec: canonical encoding of a decimal integer field
(`getAmountHex` / `getFeeHex` / `getHeightHex` in transaction/utils, not under
src): absent, empty and zero all encode to the empty byte string. -/
def getNumberBytes (o : Option String) : List Nat :=
  natToBE (decToNat (o.getD ("")))

/-- Modelled from the spec: `getRealAddressFromAddress` (vitejs-hdwallet, not
under src) strips the human-readable wrapper from an address, leaving the raw
identifier; it is always derived, never stored. -/
def getRealAddressFromAddress (a : String) : String := a.drop 5

/-- Modelled from the spec: single-byte blockType tag. -/
def getBlockTypeBytes (bt : Nat) : List Nat := [bt % 256]

/-- Modelled from the spec: a 32-byte hash field (`previousHash`,
`sendBlockHash`), defaulting to the all-zero sentinel when absent. -/
def getHash32Bytes (o : Option String) : List Nat := strBytes (o.getD Default_Hash)

/-- Modelled from the spec: an optional address-like field (`toAddress`,
`tokenId`), encoding to the empty byte string when absent. -/
def getAddrFieldBytes (o : Option String) : List Nat := strBytes (o.getD (""))

/-- Modelled from the spec: the data payload, already decoded to raw bytes. -/
def getDataBytes (o : Option (List Nat)) : List Nat := o.getD []

/-- Modelled from the spec: the proof-of-work nonce bytes, empty when absent. -/
def getNonceBytes (o : Option (List Nat)) : List Nat := o.getD []

/-- The concatenation of the canonically encoded fields in the fixed
wire-protocol order of spec section 4.1. -/
def blockSource (b : AccountBlockB) : List Nat :=
  getBlockTypeBytes b.blockType
    ++ strBytes (getRealAddressFromAddress b.address)
    ++ getHash32Bytes b.previousHash
    ++ getAddrFieldBytes b.toAddress
    ++ getNumberBytes b.amount
    ++ getAddrFieldBytes b.tokenId
    ++ getDataBytes b.data
    ++ getNumberBytes b.fee
    ++ getHash32Bytes b.sendBlockHash
    ++ getNumberBytes b.height
    ++ getNonceBytes b.nonce

/-- Modelled from the spec: the 256-bit keyed digest (blake2b in
transaction/utils, not under src), modelled as an injective symbolic digest so
that hash equality coincides with equality of the canonical encodings. -/
def blake2bDigest (l : List Nat) : List Nat := l

/-- `getAccountBlockHash` (transaction/utils, not under src), modelled from
the spec: the digest of the canonical field concatenation. -/
def getAccountBlockHash (b : AccountBlockB) : List Nat :=
  blake2bDigest (blockSource b)

/-! ## Chain-tip resolution (`getHeight`, accountBlock.ts lines 135-142) -/

/-- `new BigNumber(height).add(new BigNumber(1)).toString()`: decimal string
successor. -/
def decStrSucc (s : String) : String := natToDecStr (decToNat s + 1)

/-- The response of the `ledger_getLatestAccountBlock` chain-tip query: both
fields may be absent in the JSON object. -/
structure ChainTip where
  height : Option String := none
  hash : Option String := none
deriving Repr, DecidableEq

/-- JavaScript truthiness of an optional string field: absent and the empty
string are falsy, every other string (including a literal zero numeral) is
truthy. -/
def truthyStr (o : Option String) : Bool :=
  match o with
  | none => false
  | some s => s ≠ ""

/-- `AccountBlockClass.getHeight` (accountBlock.ts lines 135-142), with the
chain-tip response as the explicit input:
`height = prev && prev.height ? prev.height : ''`,
`height = height ? succ(height) : '1'`,
`previousHash = prev && prev.hash ? prev.hash : Default_Hash`. -/
def getHeight (prev : Option ChainTip) : String × String :=
  let h0 : String :=
    match prev with
    | none => ""
    | some t => if truthyStr t.height then t.height.getD ("") else ""
  let height : String := if h0 ≠ "" then decStrSucc h0 else "1"
  let previousHash : String :=
    match prev with
    | none => Default_Hash
    | some t => if truthyStr t.hash then t.hash.getD ("") else Default_Hash
  (height, previousHash)

/-! ## Eager validation and the constructor (accountBlock.ts lines 30-53) -/

/-- The validation error kinds of spec section 7. -/
inductive ValidationErrorKind
  | MissingParam
  | InvalidAddress
  | AddressMismatch
  | KeyMismatch
deriving Repr, DecidableEq

/-- A valid wrapped address carries the human-readable wrapper. -/
def isValidAddress (a : String) : Bool := a.toList.take 5 == ("vite_").toList

/-- The valid blockType tags (request/send, response/receive and
contract-creation variants). -/
def isValidBlockType (bt : Nat) : Bool := 1 ≤ bt && bt ≤ 7

/-- The caller-supplied constructor arguments; every field of the JavaScript
options object may be absent. -/
structure CtorParams where
  blockType : Option Nat := none
  address : Option String := none
  fee : Option String := none
  data : Option (List Nat) := none
  sendBlockHash : Option String := none
  amount : Option String := none
  toAddress : Option String := none
  tokenId : Option String := none
deriving Repr, DecidableEq

/-- Modelled from the spec: `checkAccountBlock` (transaction/utils, not under
src) returns a tagged error for a missing or invalid required field and no
error for valid input — the same convention as every other `checkParams` call
site in accountBlock.ts, where the caller throws when the result is non-null. -/
def checkAccountBlock (p : CtorParams) : Option ValidationErrorKind :=
  match p.blockType, p.address with
  | none, _ => some .MissingParam
  | _, none => some .MissingParam
  | some bt, some a =>
    if ¬ isValidBlockType bt then some .MissingParam
    else if ¬ isValidAddress a then some .InvalidAddress
    else none

/-- What the constructor throws: the source line `if (!err) { throw err; }`
throws the check result itself, which on that branch is the null value. -/
inductive CtorThrown
  | nullValue
  | validationError (k : ValidationErrorKind)
deriving Repr, DecidableEq

/-- `AccountBlockClass`'s constructor (accountBlock.ts lines 30-53), verbatim:
`const err = checkAccountBlock(...); if (!err) { throw err; }` — when the
check returns no error the falsy result is thrown, and when it returns an
error the constructor proceeds to assign the fields. -/
def AccountBlockConstructor (p : CtorParams) : Except CtorThrown AccountBlockB :=
  match checkAccountBlock p with
  | none => .error .nullValue
  | some _ =>
    .ok { blockType := p.blockType.getD 0
          address := p.address.getD ("")
          fee := p.fee
          data := p.data
          sendBlockHash := p.sendBlockHash
          amount := p.amount
          toAddress := p.toAddress
          tokenId := p.tokenId }

/-! ## Signer (`setPublicKey` and `sign`, accountBlock.ts lines 216-263) -/

/-- `AccountBlockClass.setPublicKey` (accountBlock.ts lines 216-234): derives
an address from the supplied public key and throws when it differs from the
block's address; otherwise stores the public key. -/
def AccountBlockB.setPublicKey (b : AccountBlockB) (p : PubKey) :
    Except ValidationErrorKind AccountBlockB :=
  if b.address ≠ getAddressFromPublicKey p then .error .AddressMismatch
  else .ok { b with publicKey := some p }

/-- `AccountBlockClass.sign` (accountBlock.ts lines 240-263): derives the
key's public key and address, throws when the derived address differs from the
block's address, then stores the public key and the ed25519 signature of the
block's content hash. -/
def AccountBlockB.sign (b : AccountBlockB) (k : PrivKey) :
    Except ValidationErrorKind AccountBlockB :=
  let derived := createAddressByPrivateKey k
  if b.address ≠ derived.1 then .error .KeyMismatch
  else
    match b.setPublicKey derived.2 with
    | .error e => .error e
    | .ok b1 => .ok { b1 with signature := some (ed25519Sign (getAccountBlockHash b1) k) }

/-- Boolean success test for `Except`. -/
def exceptIsOk {ε α : Type} (e : Except ε α) : Bool :=
  match e with
  | .ok _ => true
  | .error _ => false

/-! ## PoW assessment (`autoSetNonce`, accountBlock.ts lines 203-214) -/

/-- JavaScript truthiness of the `difficulty` field: `null`/absent and the
empty string are falsy. -/
def falsyDifficulty (d : Option String) : Bool :=
  match d with
  | none => true
  | some s => s == ""

/-- `AccountBlockClass.autoSetNonce` (accountBlock.ts lines 203-214), with the
oracle's difficulty response and the solver's nonce as explicit inputs:
requires `previousHash` (the `checkParams` guard of `getDifficulty`), stores
the difficulty, then `nonce = this.difficulty ? await getNonce(...) : null`.
The returned count is the number of `util_getPoWNonce` solver calls. -/
def autoSetNonce (difficultyResp : Option String) (solverNonce : List Nat)
    (b : AccountBlockB) : Except ValidationErrorKind (AccountBlockB × Nat) :=
  if b.previousHash = none then .error .MissingParam
  else
    let b1 := { b with difficulty := difficultyResp }
    if falsyDifficulty b1.difficulty then .ok ({ b1 with nonce := none }, 0)
    else .ok ({ b1 with nonce := some solverNonce }, 1)

/-! ## The transaction pipeline (`sendPowTx`, src/unnamed/part_000 lines
352-463)

Each continuation-passing stage of the source becomes one definition; the
mutable `lifeCycle` and `accountBlock` variables become an explicitly threaded
state; the caller-supplied hooks become a three-valued tag (absent, advancing
the continuation with no reject flag, or invoking it with the reject signal);
the external collaborators (difficulty oracle, nonce solver, key) are explicit
parameters.  The counters record how many times the solver (`pow`), the
signer and the submission are invoked. -/

/-- Behaviour of one registered interception hook.  `beforeCheckPow` is not
included: its continuation `checkFunc` takes `usePledgeQuota`, not a reject
flag, so that stage cannot abort. -/
inductive Hook
  | absent
  | advance
  | reject
deriving Repr, DecidableEq

/-- The rejectable hooks of one `sendPowTx` invocation. -/
structure Hooks where
  beforePow : Hook := .absent
  beforeSignTx : Hook := .absent
  beforeSendTx : Hook := .absent
deriving Repr, DecidableEq

/-- The `calcPoWDifficulty` oracle response. -/
structure CheckPowResult where
  difficulty : Option String := none
deriving Repr, DecidableEq

/-- The external collaborators and hooks of one `sendPowTx` invocation. -/
structure PipeEnv where
  hooks : Hooks := {}
  checkPowResult : CheckPowResult := {}
  solvedNonce : List Nat := []
  privateKey : PrivKey := 0
deriving Repr, DecidableEq

/-- The state threaded through the pipeline stages: the `lifeCycle` marker and
`accountBlock` variables of the source plus instrumentation counters. -/
structure PipeSt where
  lifeCycle : String
  accountBlock : AccountBlockB
  powCalls : Nat := 0
  signCalls : Nat := 0
  sendCalls : Nat := 0
deriving Repr, DecidableEq

/-- The value a `sendPowTx` invocation resolves with, plus the counters. -/
structure PipeOut where
  lifeCycle : String
  accountBlock : AccountBlockB
  checkPowResult : CheckPowResult
  powCalls : Nat
  signCalls : Nat
  sendCalls : Nat
deriving Repr, DecidableEq

/-- The `{ lifeCycle, checkPowResult, accountBlock }` object returned on a
reject, carrying the current state. -/
def mkPipeOut (e : PipeEnv) (st : PipeSt) : PipeOut :=
  { lifeCycle := st.lifeCycle
    accountBlock := st.accountBlock
    checkPowResult := e.checkPowResult
    powCalls := st.powCalls
    signCalls := st.signCalls
    sendCalls := st.sendCalls }

/-- Modelled from the spec: `signAccountBlock` (vitejs-accountblock, not under
src): computes the content hash, signs it and stores public key and
signature. -/
def signAccountBlock (b : AccountBlockB) (k : PrivKey) : AccountBlockB :=
  { b with publicKey := some (getPublicKeyOf k)
           signature := some (ed25519Sign (getAccountBlockHash b) k) }

/-- Modelled from the spec: `builtinTxBlock.pow` attaches the assessed
difficulty and the solver's nonce to the block. -/
def powAttach (b : AccountBlockB) (d : Option String) (n : List Nat) : AccountBlockB :=
  { b with difficulty := d, nonce := some n }

/-- Step 7 `sendTxFunc` (part_000 lines 443-458): on reject, resolve with the
current state; otherwise submit and resolve with `lifeCycle: 'finish'`. -/
def sendTxFunc (e : PipeEnv) (st : PipeSt) (isReject : Bool) : PipeOut :=
  if isReject then mkPipeOut e st
  else
    let st1 := { st with sendCalls := st.sendCalls + 1 }
    { mkPipeOut e st1 with lifeCycle := "finish" }

/-- Step 6 `_beforeSendTx` (part_000 lines 434-440): invoke the hook with the
`sendTxFunc` continuation, or continue directly when none is registered. -/
def beforeSendTxStage (e : PipeEnv) (st : PipeSt) : PipeOut :=
  match e.hooks.beforeSendTx with
  | .absent => sendTxFunc e st false
  | .advance => sendTxFunc e st false
  | .reject => sendTxFunc e st true

/-- Step 5 `signTx` (part_000 lines 418-431): on reject, resolve with the
current state; otherwise sign the block, mark `signDone` and continue. -/
def signTxStage (e : PipeEnv) (st : PipeSt) (isReject : Bool) : PipeOut :=
  if isReject then mkPipeOut e st
  else
    let st1 := { st with accountBlock := signAccountBlock st.accountBlock e.privateKey
                         signCalls := st.signCalls + 1
                         lifeCycle := "signDone" }
    beforeSendTxStage e st1

/-- Step 4 `_beforeSignTx` (part_000 lines 409-415). -/
def beforeSignTxStage (e : PipeEnv) (st : PipeSt) : PipeOut :=
  match e.hooks.beforeSignTx with
  | .absent => signTxStage e st false
  | .advance => signTxStage e st false
  | .reject => signTxStage e st true

/-- Step 3 `powFunc` (part_000 lines 397-406): on reject, resolve with the
current state; otherwise run the solver, attach the nonce, mark `powDone` and
continue. -/
def powFuncStage (e : PipeEnv) (st : PipeSt) (isReject : Bool) : PipeOut :=
  if isReject then mkPipeOut e st
  else
    let st1 := { st with
                 accountBlock := powAttach st.accountBlock e.checkPowResult.difficulty e.solvedNonce
                 powCalls := st.powCalls + 1
                 lifeCycle := "powDone" }
    beforeSignTxStage e st1

/-- Step 2 `_beforePow` (part_000 lines 388-394). -/
def beforePowStage (e : PipeEnv) (st : PipeSt) : PipeOut :=
  match e.hooks.beforePow with
  | .absent => powFuncStage e st false
  | .advance => powFuncStage e st false
  | .reject => powFuncStage e st true

/-- Step 1 `checkFunc` (part_000 lines 367-385): query the difficulty oracle,
mark `checkPowDone`, and jump directly to `_beforeSendTx` when no
proof-of-work is needed, else proceed to `_beforePow`. -/
def checkFuncStage (e : PipeEnv) (st : PipeSt) : PipeOut :=
  let st1 := { st with lifeCycle := "checkPowDone" }
  if falsyDifficulty e.checkPowResult.difficulty then beforeSendTxStage e st1
  else beforePowStage e st1

/-- `sendPowTx` (part_000 lines 352-463): set `lifeCycle = 'beforeCheckPow'`
and start with `checkFunc` (a registered `beforeCheckPow` hook can only
forward to `checkFunc`, its continuation has no reject flag). -/
def sendPowTx (e : PipeEnv) (b0 : AccountBlockB) : PipeOut :=
  checkFuncStage e { lifeCycle := "beforeCheckPow", accountBlock := b0 }

/-! ## Submission (`Client.sendRawTx`, src/unnamed/part_000 lines 126-144) -/

/-- A transport/validation error returned by the remote ledger on
rejection. -/
structure RpcError where
  code : Int := 0
  message : String := ""
deriving Repr, DecidableEq

/-- Modelled from the spec: `validReqAccountBlock` (vitejs-accountblock, not
under src) returns an error description for an invalid request block and null
for a valid one. -/
def validReqAccountBlock (b : AccountBlockB) : Option String :=
  if ¬ isValidBlockType b.blockType then some ("blockType")
  else if ¬ isValidAddress b.address then some ("accountAddress")
  else none

/-- The rejection value of `Client.sendRawTx`: either the synchronous
`checkParams` failure, or the remote rejection with the signed block attached
as `error.accountBlock`. -/
inductive SendTxFailure
  | paramError (msg : String)
  | rejected (e : RpcError) (accountBlock : AccountBlockB)
deriving Repr, DecidableEq

/-- `Client.sendRawTx` (part_000 lines 126-144), with the remote node's
response to a submission as the explicit `submitResp` parameter: validate the
arguments, sign the block, submit it once, and on rejection attach the signed
block to the error before propagating it.  The second component counts the
submission attempts. -/
def clientSendRawTx (accountBlock : Option AccountBlockB) (privateKey : Option PrivKey)
    (submitResp : AccountBlockB → Except RpcError Unit) :
    Except SendTxFailure Unit × Nat :=
  match accountBlock, privateKey with
  | some ab, some pk =>
    if (validReqAccountBlock ab).isSome then (.error (.paramError ("accountBlock")), 0)
    else
      let signed := signAccountBlock ab pk
      match submitResp signed with
      | .ok u => (.ok u, 1)
      | .error err => (.error (.rejected err signed), 1)
  | _, _ => (.error (.paramError ("params missing")), 0)

/-! ## The auto-receive loop (`autoReceiveTx._receive`, src/unnamed/part_000
lines 292-305)

The remote ledger's ordered pending-inbound queue is modelled from the spec as
a list of block hashes, oldest first; a successful matching response block
removes the block it receives from the queue. -/

/-- One tick of the receive loop: `getOnroadBlocks(index 0, pageCount 1)`
fetches the oldest pending block; when none exists the tick returns null and
submits nothing, otherwise a response block for `result[0].hash` is built and
submitted, which consumes that pending block. -/
def receiveTickFn (pending : List String) : List String × Option String :=
  match pending.take 1 with
  | [] => (pending, none)
  | h :: _ => (pending.drop 1, some h)

/-- `n` successive ticks of the receive loop: the final queue together with
the `fromBlockHash` values of the submitted response blocks, in order. -/
def runReceiveTicks : Nat → List String → List String × List String
  | 0, q => (q, [])
  | n + 1, q =>
    match receiveTickFn q with
    | (q1, none) => runReceiveTicks n q1
    | (q1, some h) =>
      let rest := runReceiveTicks n q1
      (rest.1, h :: rest.2)

/-! ## The per-account loops (src/unnamed/part_000 lines 241-332)

`activate` / `freeze` drive the balance loop through the `_lock` flag, and
`autoReceiveTx` / `stopAutoReceiveTx` drive the receive loop through the
`_autoReceive` flag.  Each started loop is a self-rescheduling timer chain
that dies only when its next tick observes the stop flag.  The state records
the two flags plus the number of live timer chains of each loop; the
cooperative interleaving of method calls and timer firings is a list of
events. -/

/-- The flag state of an `AccountClass` instance plus the live timer chains of
each loop. -/
structure AccountLoopSt where
  lock : Bool := true
  autoReceive : Bool := false
  balChains : Nat := 0
  recvChains : Nat := 0
deriving Repr, DecidableEq

/-- The constructor state: `_lock = true`, `_autoReceive = false`, no loop
running. -/
def initAccountSt : AccountLoopSt := {}

/-- `autoReceiveTx` (part_000 lines 285-291): return immediately when
`_autoReceive` is already set, otherwise set it and start a receive-loop timer
chain. -/
def autoReceiveTxFn (s : AccountLoopSt) : AccountLoopSt :=
  if s.autoReceive then s
  else { s with autoReceive := true, recvChains := s.recvChains + 1 }

/-- `stopAutoReceiveTx` (part_000 lines 330-332): clear the flag; the running
chain only dies at its next tick. -/
def stopAutoReceiveTxFn (s : AccountLoopSt) : AccountLoopSt :=
  { s with autoReceive := false }

/-- `activate` (part_000 lines 241-247): return immediately when `_lock` is
already false, otherwise clear it and start a balance-loop timer chain. -/
def activateFn (s : AccountLoopSt) : AccountLoopSt :=
  if s.lock = false then s
  else { s with lock := false, balChains := s.balChains + 1 }

/-- `freeze` (part_000 lines 281-283): set the flag; the running chain only
dies at its next tick. -/
def freezeFn (s : AccountLoopSt) : AccountLoopSt :=
  { s with lock := true }

/-- One firing of a balance-loop chain's timer (the body of `activate`'s
`loop`): with `_lock` set the chain dies; otherwise it reschedules and — when
the balance fetch succeeded — starts the receive loop when pending-inbound
entries exist and stops it when none do.  A firing with no live chain is a
no-op. -/
def balanceTickFn (ok hasPending : Bool) (s : AccountLoopSt) : AccountLoopSt :=
  if s.balChains = 0 then s
  else if s.lock then { s with balChains := s.balChains - 1 }
  else if ok then
    if hasPending then autoReceiveTxFn s else stopAutoReceiveTxFn s
  else s

/-- One firing of a receive-loop chain's timer (the body of `autoReceiveTx`'s
`loop`): with `_autoReceive` cleared the chain dies, otherwise it runs
`_receive` and reschedules. -/
def receiveLoopTickFn (s : AccountLoopSt) : AccountLoopSt :=
  if s.recvChains = 0 then s
  else if s.autoReceive = false then { s with recvChains := s.recvChains - 1 }
  else s

/-- An event of the cooperative interleaving: a method call on the account or
a timer firing. -/
inductive AccountEvent
  | activate
  | freeze
  | autoReceiveTx
  | stopAutoReceiveTx
  | balanceTick (ok hasPending : Bool)
  | receiveLoopTick
deriving Repr, DecidableEq

/-- The transition function of the loop state machine. -/
def accountStep : AccountEvent → AccountLoopSt → AccountLoopSt
  | .activate, s => activateFn s
  | .freeze, s => freezeFn s
  | .autoReceiveTx, s => autoReceiveTxFn s
  | .stopAutoReceiveTx, s => stopAutoReceiveTxFn s
  | .balanceTick ok hasPending, s => balanceTickFn ok hasPending s
  | .receiveLoopTick, s => receiveLoopTickFn s

/-- Run an interleaving of events. -/
def runEvents (s : AccountLoopSt) : List AccountEvent → AccountLoopSt
  | [] => s
  | e :: tr => runEvents (accountStep e s) tr

/-- At most one balance loop and at most one receive loop are live. -/
def LoopInv (s : AccountLoopSt) : Prop :=
  s.balChains ≤ 1 ∧ s.recvChains ≤ 1

instance (s : AccountLoopSt) : Decidable (LoopInv s) := by
  unfold LoopInv; infer_instance

/-- Quiescent-start guard on events: a loop is only (re)started when no timer
chain from an earlier start of the same loop is still pending. -/
def allowedEvent : AccountEvent → AccountLoopSt → Bool
  | .activate, s => s.lock = false || s.balChains = 0
  | .autoReceiveTx, s => s.autoReceive = true || s.recvChains = 0
  | .balanceTick _ hasPending, s =>
    !hasPending || (s.autoReceive = true || s.recvChains = 0)
  | _, _ => true

/-- A trace is guarded when every event satisfies the quiescent-start guard in
the state it fires in. -/
def guardedTrace : AccountLoopSt → List AccountEvent → Bool
  | _, [] => true
  | s, e :: tr => allowedEvent e s && guardedTrace (accountStep e s) tr

/-! ## Theorems -/

/-- Claim C1 (code bug): the constructor's validation guard is inverted.  The
source line `if (!err) { throw err; }` (accountBlock.ts lines 40-43) throws
the falsy check result on fully valid input and silently accepts input the
check rejects — the opposite of the claimed behaviour, and the opposite of the
`if (err) throw err` convention used at every other check site of the same
file. -/
theorem c1_constructor_guard_inverted :
    checkAccountBlock { blockType := some 2, address := some ("vite_1") } = none
    ∧ AccountBlockConstructor { blockType := some 2, address := some ("vite_1") }
        = .error .nullValue
    ∧ checkAccountBlock { blockType := some 2, address := some ("bob") }
        = some .InvalidAddress
    ∧ AccountBlockConstructor { blockType := some 2, address := some ("bob") }
        = .ok { blockType := 2, address := "bob" } := by
  refine ⟨by decide, rfl, by decide, rfl⟩

/-- Claim C2, counterexample: for the chain-tip response with height `0` and a
non-sentinel hash, `getHeight` keeps the tip's hash as `previousHash` instead
of the claimed sentinel, because the height and hash branches of the source
test independent conditions. -/
theorem c2_counterexample :
    getHeight (some { height := some ("0"), hash := some ("ab") }) = ("1", "ab")
    ∧ ("ab" : String) ≠ Default_Hash := by
  refine ⟨by decide, by decide⟩

/-- Claim C2, amended: `getHeight` returns height `'1'` when the tip is absent
or its height field is absent or empty, and `tip.height + 1` (decimal string
arithmetic) otherwise; independently, `previousHash` is the sentinel when the
tip is absent or its hash field is absent or empty, and `tip.hash` otherwise.
In particular for a normal tip (non-empty height and hash) the result is
`(tip.height + 1, tip.hash)`, which gives the chain linkage
`height(n) = height(n-1) + 1` and `previousHash(n) = hash(block n-1)`. -/
theorem c2_amended :
    (∀ h hsh : String, h ≠ "" → hsh ≠ "" →
      getHeight (some { height := some h, hash := some hsh }) = (decStrSucc h, hsh))
    ∧ getHeight none = ("1", Default_Hash)
    ∧ (∀ t : ChainTip, truthyStr t.height = false → (getHeight (some t)).1 = "1")
    ∧ (∀ t : ChainTip, truthyStr t.hash = false → (getHeight (some t)).2 = Default_Hash) := by
  refine ⟨?_, rfl, ?_, ?_⟩
  · intro h hsh hh hs
    simp [getHeight, truthyStr, hh, hs]
  · intro t ht
    simp [getHeight, ht]
  · intro t ht
    simp [getHeight, ht]

/-- Claim C2, witness for the amended theorem at a concrete tip. -/
theorem c2_witness :
    getHeight (some { height := some ("41"), hash := some ("ab") })
      = (decStrSucc ("41"), "ab") :=
  c2_amended.1 "41" "ab" (by decide) (by decide)

/-- Claim C8: K successive receive-loop ticks drain a queue of K pending
inbound blocks to empty, each tick fetching exactly the oldest pending block
and submitting one matching response block for it, and a tick that finds no
pending block submits nothing. -/
theorem c8_auto_receive_drain :
    (∀ q : List String, runReceiveTicks q.length q = ([], q))
    ∧ (∀ (h : String) (t : List String), receiveTickFn (h :: t) = (t, some h))
    ∧ receiveTickFn [] = ([], none) := by
  refine ⟨?_, fun h t => rfl, rfl⟩
  intro q
  induction q with
  | nil => rfl
  | cons h t ih => simp [runReceiveTicks, receiveTickFn, ih]

/-- Claim C3: when the difficulty assessment returns a falsy difficulty, the
pipeline never invokes the nonce solver (for every hook configuration), and —
as long as the one hook still crossed on this path, `beforeSendTx`, does not
reject — the run reaches the `finish` state; `autoSetNonce` stores the falsy
difficulty and leaves `nonce` set to null with zero solver calls. -/
theorem c3_pow_skip (e : PipeEnv) (b0 b : AccountBlockB) (n : List Nat)
    (hd : falsyDifficulty e.checkPowResult.difficulty = true)
    (hp : b.previousHash ≠ none) :
    (sendPowTx e b0).powCalls = 0
    ∧ (e.hooks.beforeSendTx ≠ .reject → (sendPowTx e b0).lifeCycle = "finish")
    ∧ autoSetNonce e.checkPowResult.difficulty n b
        = .ok ({ b with difficulty := e.checkPowResult.difficulty, nonce := none }, 0) := by
  obtain ⟨⟨bp, bs, bsend⟩, cpr, sn, pk⟩ := e
  refine ⟨?_, ?_, ?_⟩
  · cases bsend <;>
      simp_all [sendPowTx, checkFuncStage, beforeSendTxStage, sendTxFunc, mkPipeOut]
  · cases bsend <;>
      simp_all [sendPowTx, checkFuncStage, beforeSendTxStage, sendTxFunc, mkPipeOut]
  · simp_all [autoSetNonce]

/-- Claim C3, witness: a concrete run with no hooks, a null difficulty
response and a block whose previousHash is the sentinel. -/
theorem c3_witness :
    (sendPowTx {} { blockType := 2, address := "vite_1" }).powCalls = 0
    ∧ (({} : PipeEnv).hooks.beforeSendTx ≠ .reject →
        (sendPowTx {} { blockType := 2, address := "vite_1" }).lifeCycle = "finish")
    ∧ autoSetNonce ({} : PipeEnv).checkPowResult.difficulty []
        { blockType := 2, address := "vite_1", previousHash := some Default_Hash }
      = .ok ({ blockType := 2, address := "vite_1", previousHash := some Default_Hash,
               difficulty := ({} : PipeEnv).checkPowResult.difficulty, nonce := none }, 0) :=
  c3_pow_skip {} { blockType := 2, address := "vite_1" }
    { blockType := 2, address := "vite_1", previousHash := some Default_Hash }
    [] (by decide) (by simp)

/-- Claim C4: a hook that invokes its continuation with the reject signal
short-circuits the pipeline with the `{ lifeCycle, checkPowResult,
accountBlock }` of the last completed stage and the submission is never
invoked: `beforePow` rejecting ends the run at `checkPowDone` with the block
untouched; an invoked `beforeSignTx` hook rejecting ends it at the pre-sign
marker `powDone` with no signature set and no sign or send call; a
`beforeSendTx` reject ends it at `checkPowDone` (PoW skipped) or `signDone`
(PoW path) without submitting. -/
theorem c4_abort_short_circuit (e : PipeEnv) (b0 : AccountBlockB) :
    (falsyDifficulty e.checkPowResult.difficulty = false → e.hooks.beforePow = .reject →
      sendPowTx e b0
        = { lifeCycle := "checkPowDone", accountBlock := b0,
            checkPowResult := e.checkPowResult, powCalls := 0, signCalls := 0, sendCalls := 0 })
    ∧ (falsyDifficulty e.checkPowResult.difficulty = false → e.hooks.beforePow ≠ .reject →
        e.hooks.beforeSignTx = .reject →
      (sendPowTx e b0).lifeCycle = "powDone"
      ∧ (sendPowTx e b0).signCalls = 0
      ∧ (sendPowTx e b0).sendCalls = 0
      ∧ (sendPowTx e b0).accountBlock.signature = b0.signature)
    ∧ (falsyDifficulty e.checkPowResult.difficulty = true → e.hooks.beforeSendTx = .reject →
      sendPowTx e b0
        = { lifeCycle := "checkPowDone", accountBlock := b0,
            checkPowResult := e.checkPowResult, powCalls := 0, signCalls := 0, sendCalls := 0 })
    ∧ (falsyDifficulty e.checkPowResult.difficulty = false → e.hooks.beforePow ≠ .reject →
        e.hooks.beforeSignTx ≠ .reject → e.hooks.beforeSendTx = .reject →
      (sendPowTx e b0).lifeCycle = "signDone" ∧ (sendPowTx e b0).sendCalls = 0) := by
  obtain ⟨⟨bp, bs, bsend⟩, cpr, sn, pk⟩ := e
  refine ⟨?_, ?_, ?_, ?_⟩ <;>
    cases bp <;> cases bs <;> cases bsend <;>
      simp_all [sendPowTx, checkFuncStage, beforePowStage, powFuncStage, beforeSignTxStage,
        signTxStage, beforeSendTxStage, sendTxFunc, mkPipeOut, powAttach, signAccountBlock]

/-- Claim C4, witness: a rejecting `beforeSignTx` hook on the PoW path ends
the run at `powDone` with no signature and no submission. -/
theorem c4_witness :
    (sendPowTx { hooks := { beforeSignTx := .reject }, checkPowResult := { difficulty := some ("67") } }
        { blockType := 2, address := "vite_1" }).lifeCycle = "powDone"
    ∧ (sendPowTx { hooks := { beforeSignTx := .reject }, checkPowResult := { difficulty := some ("67") } }
        { blockType := 2, address := "vite_1" }).signCalls = 0
    ∧ (sendPowTx { hooks := { beforeSignTx := .reject }, checkPowResult := { difficulty := some ("67") } }
        { blockType := 2, address := "vite_1" }).sendCalls = 0
    ∧ (sendPowTx { hooks := { beforeSignTx := .reject }, checkPowResult := { difficulty := some ("67") } }
        { blockType := 2, address := "vite_1" }).accountBlock.signature
      = ({ blockType := 2, address := "vite_1" } : AccountBlockB).signature :=
  (c4_abort_short_circuit
      { hooks := { beforeSignTx := .reject }, checkPowResult := { difficulty := some ("67") } }
      { blockType := 2, address := "vite_1" }).2.1
    (by decide) (by decide) (by decide)

/-- Claim C9: with a falsy difficulty and no hooks registered, the pipeline
jumps from `checkPowDone` directly to the send stage: the whole run performs
zero pow and zero sign calls and exactly one submission, finishes, and leaves
the account block exactly as it was built — in particular with no signature or
public key set by the pipeline. -/
theorem c9_pow_skip_direct_send (cpr : CheckPowResult) (sn : List Nat) (pk : PrivKey)
    (b0 : AccountBlockB) (hd : falsyDifficulty cpr.difficulty = true) :
    sendPowTx { hooks := {}, checkPowResult := cpr, solvedNonce := sn, privateKey := pk } b0
      = { lifeCycle := "finish", accountBlock := b0, checkPowResult := cpr,
          powCalls := 0, signCalls := 0, sendCalls := 1 } := by
  simp [sendPowTx, checkFuncStage, hd, beforeSendTxStage, sendTxFunc, mkPipeOut]

/-- Claim C9, witness at a concrete no-PoW run. -/
theorem c9_witness :
    sendPowTx { hooks := {}, checkPowResult := { difficulty := none }, solvedNonce := [],
                privateKey := 0 }
        { blockType := 2, address := "vite_1" }
      = { lifeCycle := "finish", accountBlock := { blockType := 2, address := "vite_1" },
          checkPowResult := { difficulty := none },
          powCalls := 0, signCalls := 0, sendCalls := 1 } :=
  c9_pow_skip_direct_send { difficulty := none } [] 0
    { blockType := 2, address := "vite_1" } (by decide)

/-- Claim C5: whenever `sign(privateKey)` succeeds, the stored signature
verifies against the finalized block's content hash and the stored public
key, and the address derived from that public key equals the block's address
field. -/
theorem c5_sign_roundtrip (b : AccountBlockB) (k : PrivKey)
    (h : exceptIsOk (b.sign k) = true) :
    ∃ b1 sig pub, b.sign k = .ok b1
      ∧ b1.signature = some sig ∧ b1.publicKey = some pub
      ∧ ed25519Verify sig (getAccountBlockHash b1) pub = true
      ∧ getAddressFromPublicKey pub = b.address := by
  by_cases hb : b.address = getAddressFromPublicKey (getPublicKeyOf k)
  · refine ⟨signAccountBlock b k, ed25519Sign (getAccountBlockHash b) k,
      getPublicKeyOf k, ?_, rfl, rfl, ?_, hb.symm⟩
    · simp [AccountBlockB.sign, AccountBlockB.setPublicKey, createAddressByPrivateKey, hb,
        signAccountBlock]
      rw [← hb]
      exact rfl
    · have hh : getAccountBlockHash (signAccountBlock b k) = getAccountBlockHash b := rfl
      simp [ed25519Verify, ed25519Sign, hh]
  · exfalso
    simp [AccountBlockB.sign, AccountBlockB.setPublicKey, createAddressByPrivateKey, hb,
      exceptIsOk] at h

/-- Claim C5, witness: a concrete block whose address matches the key derived
from private key 0. -/
theorem c5_witness :
    ∃ b1 sig pub,
      AccountBlockB.sign { blockType := 2, address := "vite_1" } 0 = .ok b1
      ∧ b1.signature = some sig ∧ b1.publicKey = some pub
      ∧ ed25519Verify sig (getAccountBlockHash b1) pub = true
      ∧ getAddressFromPublicKey pub
          = ({ blockType := 2, address := "vite_1" } : AccountBlockB).address :=
  c5_sign_roundtrip { blockType := 2, address := "vite_1" } 0 (by decide)

/-- Claim C6, counterexample: the blocks with amount `'0'` and with no amount
differ in a single field yet have equal content hashes, because zero and
absent integer fields both encode to the empty byte string. -/
theorem c6_counterexample :
    getAccountBlockHash { blockType := 2, address := "vite_1", amount := some ("0") }
      = getAccountBlockHash { blockType := 2, address := "vite_1" }
    ∧ ({ blockType := 2, address := "vite_1", amount := some ("0") } : AccountBlockB)
      ≠ { blockType := 2, address := "vite_1" } := by
  refine ⟨rfl, by decide⟩

/-- Claim C6, amended: the content hash is a deterministic pure function of
the eleven hashed fields (blocks that agree on them — whatever their signature
or public key — have equal hashes), and a change of the amount field alone
yields a different hash whenever the amount's canonical encoding changes; the
zero-versus-absent collision of the counterexample is exactly the case where
the encodings coincide. -/
theorem c6_amended :
    (∀ b1 b2 : AccountBlockB, b1.blockType = b2.blockType → b1.address = b2.address →
      b1.previousHash = b2.previousHash → b1.toAddress = b2.toAddress →
      b1.amount = b2.amount → b1.tokenId = b2.tokenId → b1.data = b2.data →
      b1.fee = b2.fee → b1.sendBlockHash = b2.sendBlockHash →
      b1.height = b2.height → b1.nonce = b2.nonce →
      getAccountBlockHash b1 = getAccountBlockHash b2)
    ∧ (∀ b1 b2 : AccountBlockB, b1.blockType = b2.blockType → b1.address = b2.address →
      b1.previousHash = b2.previousHash → b1.toAddress = b2.toAddress →
      b1.tokenId = b2.tokenId → b1.data = b2.data → b1.fee = b2.fee →
      b1.sendBlockHash = b2.sendBlockHash → b1.height = b2.height → b1.nonce = b2.nonce →
      getNumberBytes b1.amount ≠ getNumberBytes b2.amount →
      getAccountBlockHash b1 ≠ getAccountBlockHash b2) := by
  constructor
  · intro b1 b2 h1 h2 h3 h4 h5 h6 h7 h8 h9 h10 h11
    simp only [getAccountBlockHash, blake2bDigest, blockSource,
      h1, h2, h3, h4, h5, h6, h7, h8, h9, h10, h11]
  · intro b1 b2 h1 h2 h3 h4 h6 h7 h8 h9 h10 h11 hne heq
    apply hne
    simp only [getAccountBlockHash, blake2bDigest, blockSource,
      h1, h2, h3, h4, h6, h7, h8, h9, h10, h11, List.append_assoc] at heq
    have e1 := List.append_cancel_left heq
    have e2 := List.append_cancel_left e1
    have e3 := List.append_cancel_left e2
    have e4 := List.append_cancel_left e3
    exact List.append_cancel_right e4

/-- Claim C6, witness: the spec's own example — blocks identical but for
amount `'100'` versus `'101'` hash differently. -/
theorem c6_witness :
    getAccountBlockHash { blockType := 2, address := "vite_1", amount := some ("100") }
      ≠ getAccountBlockHash { blockType := 2, address := "vite_1", amount := some ("101") } :=
  c6_amended.2 { blockType := 2, address := "vite_1", amount := some ("100") }
    { blockType := 2, address := "vite_1", amount := some ("101") }
    rfl rfl rfl rfl rfl rfl rfl rfl rfl rfl (by decide)

/-- Claim C7: when the remote ledger rejects a submission, `Client.sendRawTx`
propagates the failure to the caller after exactly one submission attempt (no
automatic retry), with the already-assembled signed block attached to the
rejected error as `error.accountBlock`. -/
theorem c7_rejection_attaches_block (ab : AccountBlockB) (pk : PrivKey)
    (submitResp : AccountBlockB → Except RpcError Unit) (err : RpcError)
    (hv : validReqAccountBlock ab = none)
    (hr : submitResp (signAccountBlock ab pk) = .error err) :
    clientSendRawTx (some ab) (some pk) submitResp
      = (.error (.rejected err (signAccountBlock ab pk)), 1) := by
  simp [clientSendRawTx, hv, hr]

/-- Claim C7, witness at a concrete rejected submission. -/
theorem c7_witness :
    clientSendRawTx (some { blockType := 2, address := "vite_1" }) (some 0)
        (fun _ => .error { code := -1, message := "rejected" })
      = (.error (.rejected { code := -1, message := "rejected" }
          (signAccountBlock { blockType := 2, address := "vite_1" } 0)), 1) :=
  c7_rejection_attaches_block { blockType := 2, address := "vite_1" } 0
    (fun _ => .error { code := -1, message := "rejected" })
    { code := -1, message := "rejected" } (by decide) rfl

/-- Claim C10, counterexample: the at-most-one-loop invariant is not preserved
by every interleaving of the four methods — calling `activate`, then `freeze`,
then `activate` again before the first balance loop's pending tick has fired
leaves two live balance-loop timer chains, because the first chain never
observes `_lock = true`. -/
theorem c10_counterexample :
    (runEvents initAccountSt [.activate, .freeze, .activate]).balChains = 2
    ∧ ¬ LoopInv (runEvents initAccountSt [.activate, .freeze, .activate]) := by
  refine ⟨by decide, by decide⟩

/-- Guarded steps preserve the at-most-one-loop invariant. -/
theorem accountStep_loopInv (e : AccountEvent) (s : AccountLoopSt)
    (ha : allowedEvent e s = true) (hs : LoopInv s) : LoopInv (accountStep e s) := by
  obtain ⟨lk, ar, bc, rc⟩ := s
  obtain ⟨h1, h2⟩ := hs
  cases e <;>
    simp_all [accountStep, activateFn, freezeFn, autoReceiveTxFn, stopAutoReceiveTxFn,
      balanceTickFn, receiveLoopTickFn, allowedEvent, LoopInv] <;>
    split_ifs <;> simp_all

/-- Claim C10, amended: calling `activate` while the balance loop is running
(`_lock` false) returns immediately without starting a second loop, and
calling `autoReceiveTx` while `_autoReceive` is already true returns
immediately without starting a second loop; the at-most-one-loop invariant is
preserved by every interleaving of the methods and the timer firings in which
a loop is only (re)started when no timer chain from an earlier start of that
loop is still pending (after `freeze` or `stopAutoReceiveTx`, the old chain's
final tick must fire before the loop is started again) — without that
restriction the invariant fails, as the counterexample shows. -/
theorem c10_amended :
    (∀ s : AccountLoopSt, s.lock = false → activateFn s = s)
    ∧ (∀ s : AccountLoopSt, s.autoReceive = true → autoReceiveTxFn s = s)
    ∧ (∀ (s : AccountLoopSt) (tr : List AccountEvent),
        LoopInv s → guardedTrace s tr = true → LoopInv (runEvents s tr)) := by
  refine ⟨?_, ?_, ?_⟩
  · intro s h
    simp [activateFn, h]
  · intro s h
    simp [autoReceiveTxFn, h]
  · intro s tr
    induction tr generalizing s with
    | nil => exact fun h _ => h
    | cons e tr ih =>
      intro hs hg
      rw [guardedTrace, Bool.and_eq_true] at hg
      exact ih _ (accountStep_loopInv e s hg.1 hs) hg.2

/-- Claim C10, witness: the no-op behaviours at concrete states and a guarded
trace — activate, freeze, let the old chain's tick observe the flag and die,
then re-activate — that keeps the invariant. -/
theorem c10_witness :
    activateFn { lock := false, autoReceive := false, balChains := 1, recvChains := 0 }
      = { lock := false, autoReceive := false, balChains := 1, recvChains := 0 }
    ∧ autoReceiveTxFn { lock := true, autoReceive := true, balChains := 0, recvChains := 1 }
      = { lock := true, autoReceive := true, balChains := 0, recvChains := 1 }
    ∧ LoopInv (runEvents initAccountSt
        [.activate, .freeze, .balanceTick true false, .activate]) :=
  ⟨c10_amended.1 { lock := false, autoReceive := false, balChains := 1, recvChains := 0 } rfl,
   c10_amended.2.1 { lock := true, autoReceive := true, balChains := 0, recvChains := 1 } rfl,
   c10_amended.2.2 initAccountSt [.activate, .freeze, .balanceTick true false, .activate]
     (by decide) (by decide)⟩

end ViteJS
